import Mathlib

/-!
Verification of the python-worker job pipeline of PRD.Generate.Subtitle.

Shallow embedding of `python-worker/config.py` and
`python-worker/process_media.py`: the configuration codec and validator,
the progress/result reporting protocol, the extraction and transcription
stages, the background progress estimator, and the pipeline orchestrator.

Machine reals (Python floats) are modelled as `Rat`; the inputs exercised
here (quarter-second timestamps) are exactly representable in binary
floating point, so `Rat` arithmetic agrees with the source's float
arithmetic on them.  Filesystem and subprocess effects are modelled by an
explicit environment record; emitted events are collected in lists.
-/

/-! ## Python primitives -/

/-- Python `str.lower` restricted to ASCII (`Char.toNat + 32` on `A`..`Z`);
every selector in the worker's language table is ASCII. -/
def asciiLower (s : String) : String :=
  ⟨s.data.map (fun c => if 'A' ≤ c ∧ c ≤ 'Z' then Char.ofNat (c.toNat + 32) else c)⟩

/-- Python `//` (floor division) on rationals. -/
def pyfloor (q : Rat) : Int := ⌊q⌋

/-- Python `int(...)` (truncation toward zero) on rationals. -/
def pytrunc (q : Rat) : Int := if 0 ≤ q then ⌊q⌋ else -⌊-q⌋

/-- Python `%` on rationals (floored modulus, matches float `%` for a
positive modulus). -/
def pymod (a m : Rat) : Rat := a - m * ((pyfloor (a / m) : Int) : Rat)

/-- Python `repr` of a string (single quotes). -/
def pyQuote (s : String) : String := "\x27" ++ s ++ "\x27"

/-- Python `repr` of a list of strings, as interpolated by an f-string. -/
def pyListRepr (l : List String) : String :=
  "[" ++ String.intercalate ", " (l.map pyQuote) ++ "]"

/-- Zero padding of `f"{n:02d}"` for a nonnegative value. -/
def pad2 (n : Nat) : String := if n < 10 then "0" ++ Nat.repr n else Nat.repr n

/-- Zero padding of `f"{n:03d}"` for a nonnegative value. -/
def pad3 (n : Nat) : String :=
  if n < 10 then "00" ++ Nat.repr n
  else if n < 100 then "0" ++ Nat.repr n
  else Nat.repr n

/-! ## config.py -/

/-- A decoded configuration dictionary.  `none` models an absent key
(Python `key not in config`). -/
structure RawConfig where
  input_file : Option String
  output_dir : Option String
  ffmpeg_path : Option String
  whisper_model : Option String
  language : Option String
  device : Option String
  fp16 : Option Bool
  task : Option String
  output_format : Option String
  job_id : Option String
deriving Repr

def VALID_MODELS : List String := ["tiny", "base", "small", "medium", "large"]

def VALID_FORMATS : List String := ["srt", "vtt", "txt", "json"]

def VALID_TASKS : List String := ["transcribe", "translate"]

def VALID_DEVICES : List String := ["cpu", "cuda"]

/-- `LANGUAGE_CODES` from config.py; the value stored under `"auto"` is
Python `None`, i.e. `none`. -/
def LANGUAGE_CODES : List (String × Option String) :=
  [("english", some "en"), ("vietnamese", some "vi"), ("chinese", some "zh"),
   ("japanese", some "ja"), ("korean", some "ko"), ("french", some "fr"),
   ("german", some "de"), ("spanish", some "es"), ("auto", none)]

/-- `config.validate_config`, over an abstract `os.path.exists` oracle `ex`. -/
def validate_config (ex : String → Bool) (config : RawConfig) :
    Bool × Option String :=
  match config.input_file with
  | none => (false, some "Missing required field: input_file")
  | some input_file =>
    match config.output_dir with
    | none => (false, some "Missing required field: output_dir")
    | some _ =>
      if ex input_file = false then
        (false, some ("Input file not found: " ++ input_file))
      else
        let model := config.whisper_model.getD "base"
        if VALID_MODELS.contains model = false then
          (false, some ("Invalid model: " ++ model ++ ". Must be one of " ++
            pyListRepr VALID_MODELS))
        else
          let output_format := config.output_format.getD "srt"
          if VALID_FORMATS.contains output_format = false then
            (false, some ("Invalid format: " ++ output_format ++
              ". Must be one of " ++ pyListRepr VALID_FORMATS))
          else
            let task := config.task.getD "transcribe"
            if VALID_TASKS.contains task = false then
              (false, some ("Invalid task: " ++ task ++ ". Must be one of " ++
                pyListRepr VALID_TASKS))
            else
              let device := config.device.getD "cpu"
              if VALID_DEVICES.contains device = false then
                (false, some ("Invalid device: " ++ device ++
                  ". Must be one of " ++ pyListRepr VALID_DEVICES))
              else
                (true, none)

/-- `config.apply_defaults`: `DEFAULT_CONFIG.copy()` updated with the
present keys of `config` (present keys win; keys with no default pass
through). -/
def apply_defaults (config : RawConfig) : RawConfig :=
  { input_file := config.input_file
    output_dir := config.output_dir
    ffmpeg_path := some (config.ffmpeg_path.getD "ffmpeg")
    whisper_model := some (config.whisper_model.getD "base")
    language := some (config.language.getD "English")
    device := some (config.device.getD "cpu")
    fp16 := some (config.fp16.getD false)
    task := some (config.task.getD "transcribe")
    output_format := some (config.output_format.getD "srt")
    job_id := config.job_id }

/-- `config.get_language_code`: `LANGUAGE_CODES.get(lang_lower, None)` —
the default `None` and the stored `None` under `"auto"` coincide. -/
def get_language_code (language : String) : Option String :=
  (LANGUAGE_CODES.lookup (asciiLower language)).getD none

/-! ## process_media.py: timestamp formatting -/

/-- `format_timestamp` from process_media.py.  The intermediate values are
nonnegative for nonnegative input, where Python `int(...)` is floor. -/
def format_timestamp (seconds : Rat) (vtt : Bool) : String :=
  let hours := (pyfloor (seconds / 3600)).toNat
  let minutes := (pyfloor (pymod seconds 3600 / 60)).toNat
  let secs := (pytrunc (pymod seconds 60)).toNat
  let millis := (pytrunc (pymod seconds 1 * 1000)).toNat
  if vtt then
    pad2 hours ++ ":" ++ pad2 minutes ++ ":" ++ pad2 secs ++ "." ++ pad3 millis
  else
    pad2 hours ++ ":" ++ pad2 minutes ++ ":" ++ pad2 secs ++ "," ++ pad3 millis

/-! ## C8: timestamp formatting examples -/

/-- C8: `format_timestamp(3725.250)` renders `"01:02:05,250"` in SRT mode
and `"01:02:05.250"` in VTT mode, and `format_timestamp(0)` renders
`"00:00:00,000"`. -/
theorem format_timestamp_examples :
    format_timestamp (3725.25 : Rat) false = "01:02:05,250" ∧
    format_timestamp (3725.25 : Rat) true = "01:02:05.250" ∧
    format_timestamp 0 false = "00:00:00,000" := by
  have hh : (pyfloor ((3725.25 : Rat) / 3600)).toNat = 1 := by
    norm_num [pyfloor]
  have hm : (pyfloor (pymod (3725.25 : Rat) 3600 / 60)).toNat = 2 := by
    norm_num [pyfloor, pymod] <;> decide
  have hs : (pytrunc (pymod (3725.25 : Rat) 60)).toNat = 5 := by
    norm_num [pytrunc, pymod, pyfloor] <;> decide
  have hms : (pytrunc (pymod (3725.25 : Rat) 1 * 1000)).toNat = 250 := by
    norm_num [pytrunc, pymod, pyfloor] <;> decide
  have hh0 : (pyfloor ((0 : Rat) / 3600)).toNat = 0 := by
    norm_num [pyfloor]
  have hm0 : (pyfloor (pymod (0 : Rat) 3600 / 60)).toNat = 0 := by
    norm_num [pyfloor, pymod] <;> decide
  have hs0 : (pytrunc (pymod (0 : Rat) 60)).toNat = 0 := by
    norm_num [pytrunc, pymod, pyfloor]
  have hms0 : (pytrunc (pymod (0 : Rat) 1 * 1000)).toNat = 0 := by
    norm_num [pytrunc, pymod, pyfloor]
  refine ⟨?_, ?_, ?_⟩ <;>
    simp only [format_timestamp, hh, hm, hs, hms, hh0, hm0, hs0, hms0] <;>
    decide

/-! ## Events -/

/-- An event emitted on the worker's structured stdout channel: either a
progress line from `report_progress` or the terminal line from
`report_result`. -/
inductive Event where
  | progress (phase : String) (percent : Nat) (message : String) : Event
  | result (success : Bool) (wav_file : Option String)
      (subtitle_file : Option String) (error : Option String)
      (metadata : List (String × String)) : Event
deriving DecidableEq, Repr

/-- The phase of a progress event (`""` for a result event). -/
def evPhase : Event → String
  | .progress ph _ _ => ph
  | .result _ _ _ _ _ => ""

/-- The percent of a progress event (`0` for a result event). -/
def evPercent : Event → Nat
  | .progress _ p _ => p
  | .result _ _ _ _ _ => 0

/-- Whether an event is a terminal result event. -/
def isResultEvent : Event → Bool
  | .progress _ _ _ => false
  | .result _ _ _ _ _ => true

/-- The `(phase, percent)` pairs of the progress events of a trace. -/
def progressEvents (l : List Event) : List (String × Nat) :=
  l.filterMap fun e =>
    match e with
    | .progress ph pc _ => some (ph, pc)
    | .result _ _ _ _ _ => none

/-- Position of a phase in the ordered lifecycle
`queued, converting, transcribing, finalizing, completed`. -/
def phaseIdx (ph : String) : Nat :=
  if ph = "queued" then 0
  else if ph = "converting" then 1
  else if ph = "transcribing" then 2
  else if ph = "finalizing" then 3
  else if ph = "completed" then 4
  else 5

/-! ## process_media.py: report_progress

The source of `report_progress` (process_media.py line 70) reads

    progress =
    {
        "phase": phase, ...
    }

with the assignment and the dict literal split across two lines — a Python
`SyntaxError`, so the module as committed does not parse and the worker
cannot run at all.  The repository's own scripts (`test_worker.py`,
`test_progress.py`) invoke the worker and poll the snapshot file, so the
evident intent is the single dict assignment; the embedding below models
that intended body, and the defect is recorded against the claim about
this function. -/

/-- The payload serialized by `report_progress`: the same record is written
as one line to stdout and as the whole content of the snapshot file. -/
structure ProgressPayload where
  phase : String
  percent : Nat
  message : String
  timestamp : String
deriving DecidableEq, Repr

/-- The two output channels of the progress reporter: the line-oriented
live stream (stdout) and the snapshot file keyed by the job identity. -/
structure ReporterState where
  stdout : List ProgressPayload
  snapshot : Option ProgressPayload
deriving DecidableEq, Repr

/-- `report_progress` (intended body, see above): append one line to
stdout, then overwrite (mode `"w"`) the `{job_id}_progress.json` snapshot
when a job identity is set; snapshot write failures are swallowed. -/
def report_progress (job_id : Option String) (st : ReporterState)
    (phase : String) (percent : Nat) (message : String) (timestamp : String) :
    ReporterState :=
  let progress : ProgressPayload :=
    { phase := phase, percent := percent, message := message,
      timestamp := timestamp }
  let st := { st with stdout := st.stdout ++ [progress] }
  match job_id with
  | some _ => { st with snapshot := some progress }
  | none => st

/-! ## process_media.py: extract_audio -/

/-- Outcome of the `subprocess.run` invocation of FFmpeg. -/
inductive FfmpegOutcome where
  | timeout : FfmpegOutcome
  | exit (returncode : Int) (stderr : String) : FfmpegOutcome
deriving DecidableEq, Repr

/-- Environment of one `extract_audio` call: the filesystem and subprocess
facts it observes. -/
structure ExtractEnv where
  /-- `os.path.exists(input_file)` at the guard. -/
  inputExists : Bool
  /-- Result of running FFmpeg. -/
  ffmpeg : FfmpegOutcome
  /-- `os.path.exists(output_wav)` after a zero-exit FFmpeg run. -/
  wavCreated : Bool
deriving DecidableEq, Repr

/-- Which failure branch of `extract_audio` ran, with the diagnostic it
carries.  Each constructor corresponds to one `return False` site. -/
inductive ExtractFailKind where
  /-- `subprocess.TimeoutExpired` after the 3600 s budget. -/
  | timeoutFail : ExtractFailKind
  /-- Non-zero FFmpeg exit; carries the logged diagnostic, the first 500
  characters of the tool's stderr. -/
  | toolFailure (diagnostic : String) : ExtractFailKind
  /-- Zero exit but `output_wav` does not exist. -/
  | artifactMissing : ExtractFailKind
  /-- The input-file guard raised `FileNotFoundError` (caught locally). -/
  | inputMissing : ExtractFailKind
deriving DecidableEq, Repr

/-- Result of `extract_audio`: the boolean return value, the progress
events it emitted, and the failure branch taken if any. -/
structure ExtractResult where
  ok : Bool
  events : List Event
  fail : Option ExtractFailKind
deriving DecidableEq, Repr

/-- `extract_audio` from process_media.py.  The body's `try` wraps
everything; `TimeoutExpired`, `FileNotFoundError` and `Exception` handlers
all `return False`, so the function never raises to its caller. -/
def extract_audio (env : ExtractEnv) (input_file output_wav : String) :
    ExtractResult :=
  let e10 := Event.progress "converting" 10 "Starting audio extraction..."
  if env.inputExists = false then
    -- `raise FileNotFoundError`, caught by the local handler: `return False`
    { ok := false, events := [e10], fail := some .inputMissing }
  else
    let e25 := Event.progress "converting" 25 "Extracting audio with FFmpeg..."
    match env.ffmpeg with
    | .timeout =>
      -- `except subprocess.TimeoutExpired: return False`
      { ok := false, events := [e10, e25], fail := some .timeoutFail }
    | .exit returncode stderr =>
      if returncode ≠ 0 then
        -- logs `result.stderr[:500]` (first 500 chars), then `return False`
        { ok := false, events := [e10, e25],
          fail := some (.toolFailure (stderr.take 500)) }
      else if env.wavCreated = false then
        { ok := false, events := [e10, e25], fail := some .artifactMissing }
      else
        { ok := true,
          events := [e10, e25,
            Event.progress "converting" 50 "Audio extraction completed"],
          fail := none }

/-! ## process_media.py: the background progress estimator

`report_transcription_progress` runs on a daemon thread while the blocking
`model.transcribe` call proceeds.  It holds a local `progress = 70`
counter; the loop re-checks the cooperative stop event at the top and
again after each 5-second wait.  The stop event is set once (in the
`finally` of the owning stage) and stays set, so the run of the thread is
determined by the number `s` of `is_set()` checks that still return
`False`: check number `i` (0-based) returns `False` exactly when `i < s`.
Wall-clock elapsed time shown in the tick messages is abstracted by a
rendering function of the check counter. -/

/-- One thread body run: `fuel` bounds the iteration count (the counter
reaches the 89 cap after 7 productive iterations, so any fuel ≥ 9 is
exact); `c` is the number of `is_set()` checks performed so far, `p` the
current value of the local `progress` counter. -/
def estimatorLoop (s : Nat) (elapsed : Nat → String) :
    Nat → Nat → Nat → List Event
  | 0, _, _ => []
  | fuel + 1, c, p =>
    -- `while not stop_progress.is_set() and progress < 89:`
    if c < s ∧ p < 89 then
      -- `stop_progress.wait(5)` then `if not stop_progress.is_set():`
      if c + 1 < s then
        let p2 := min 89 (p + 3)
        Event.progress "transcribing" p2
            ("Transcribing audio... (" ++ elapsed (c + 1) ++ "s elapsed)") ::
          estimatorLoop s elapsed fuel (c + 2) p2
      else
        -- stop observed after the wait: no report; the loop condition is
        -- re-checked and fails on the next iteration
        estimatorLoop s elapsed fuel (c + 2) p
    else []

/-- The events emitted by one run of the estimator thread, starting from
the pre-call percent 70. -/
def report_transcription_progress (s : Nat) (elapsed : Nat → String) :
    List Event :=
  estimatorLoop s elapsed 100 0 70

/-! ## process_media.py: transcribe_audio -/

/-- One timed span of recognized speech. -/
structure Segment where
  start : Rat
  stop : Rat
  text : String
deriving DecidableEq, Repr

/-- The structured result of the blocking recognition call. -/
structure Transcript where
  language : String
  segments : List Segment
  text : String
deriving DecidableEq, Repr

/-- The arguments actually passed to the blocking `model.transcribe` call
(together with the model/device the model was loaded with). -/
structure WhisperArgs where
  model : String
  device : String
  language : Option String
  task : String
  fp16 : Bool
deriving DecidableEq, Repr

/-- Outcome of the blocking `model.transcribe` call. -/
inductive TranscribeOutcome where
  | ok (t : Transcript) : TranscribeOutcome
  /-- `MemoryError` during the call. -/
  | memErr : TranscribeOutcome
  /-- Any other exception, with its message. -/
  | exn (msg : String) : TranscribeOutcome
deriving DecidableEq, Repr

/-- Environment of one `transcribe_audio` call. -/
structure TransEnv where
  /-- `import whisper` / `import torch` succeed. -/
  whisperImportOk : Bool
  /-- `os.path.exists(wav_file)` at the guard. -/
  wavExists : Bool
  /-- `torch.cuda.is_available()`. -/
  cudaAvailable : Bool
  /-- `whisper.load_model` returns (rather than raising). -/
  loadOk : Bool
  /-- Outcome of the blocking `model.transcribe` call. -/
  outcome : TranscribeOutcome
  /-- `save_subtitle` returns (rather than re-raising a save failure). -/
  saveOk : Bool
  /-- `os.path.exists(output_file)` after `save_subtitle`. -/
  subtitleCreated : Bool
  /-- Stop schedule of the estimator thread (see `estimatorLoop`). -/
  stopSchedule : Nat
  /-- Rendering of the wall-clock elapsed seconds in tick messages. -/
  elapsed : Nat → String

/-- Result of `transcribe_audio`: the boolean return value, the events
emitted (the estimator's ticks linearized at their place inside the
blocking call), and the recognition call's arguments when it was reached. -/
structure TransResult where
  ok : Bool
  events : List Event
  call : Option WhisperArgs

/-- The inline language-selector resolution of `transcribe_audio`
(lines 285–303): an if/elif chain over `language.lower()`; a selector
matching no branch keeps its original value. -/
def inlineLanguageResolve (language : String) : Option String :=
  if asciiLower language = "auto" then none
  else if asciiLower language = "english" then some "en"
  else if asciiLower language = "vietnamese" then some "vi"
  else if asciiLower language = "chinese" then some "zh"
  else if asciiLower language = "spanish" then some "es"
  else if asciiLower language = "french" then some "fr"
  else if asciiLower language = "german" then some "de"
  else if asciiLower language = "japanese" then some "ja"
  else if asciiLower language = "korean" then some "ko"
  else some language

/-- `transcribe_audio` from process_media.py.  All exception handlers
(`FileNotFoundError`, `MemoryError`, `Exception`) return `False`. -/
def transcribe_audio (env : TransEnv) (wav_file output_file : String)
    (config : RawConfig) : TransResult :=
  if env.whisperImportOk = false then
    -- `except ImportError ... return False`
    { ok := false, events := [], call := none }
  else if env.wavExists = false then
    -- `raise FileNotFoundError`, caught by the local handler: `return False`
    { ok := false, events := [], call := none }
  else
    let e55 := Event.progress "transcribing" 55 "Loading Whisper model..."
    let model_name := config.whisper_model.getD "base"
    let device0 := config.device.getD "cpu"
    -- `if device == "cuda":` `if torch.cuda.is_available(): ...`
    -- `else: ... device = "cpu"`
    let device := if device0 = "cuda" then
        (if env.cudaAvailable then "cuda" else "cpu")
      else device0
    if env.loadOk = false then
      -- `whisper.load_model` raised; generic handler: `return False`
      { ok := false, events := [e55], call := none }
    else
      let e65 := Event.progress "transcribing" 65
        ("Model loaded: " ++ model_name)
      let language := config.language.getD "English"
      let lang := inlineLanguageResolve language
      let task := config.task.getD "transcribe"
      -- `fp16 = config.get("fp16", False) and device == "cuda"`
      let fp16 := config.fp16.getD false && decide (device = "cuda")
      let e70 := Event.progress "transcribing" 70 "Starting transcription..."
      let est := report_transcription_progress env.stopSchedule env.elapsed
      let args : WhisperArgs :=
        { model := model_name, device := device, language := lang,
          task := task, fp16 := fp16 }
      match env.outcome with
      | .memErr =>
        -- `except MemoryError ... return False`
        { ok := false, events := [e55, e65, e70] ++ est, call := some args }
      | .exn _ =>
        -- `except Exception ... return False`
        { ok := false, events := [e55, e65, e70] ++ est, call := some args }
      | .ok _ =>
        let e90 := Event.progress "transcribing" 90
          "Transcription completed, saving subtitle..."
        if env.saveOk = false then
          -- `save_subtitle` re-raised; generic handler: `return False`
          { ok := false, events := [e55, e65, e70] ++ est ++ [e90],
            call := some args }
        else if env.subtitleCreated = false then
          { ok := false, events := [e55, e65, e70] ++ est ++ [e90],
            call := some args }
        else
          { ok := true,
            events := [e55, e65, e70] ++ est ++ [e90,
              Event.progress "finalizing" 95 "Subtitle file created"],
            call := some args }

/-! ## process_media.py: process_media_file -/

/-- Outcome of `os.makedirs(output_dir, exist_ok=True)`, classified by the
orchestrator's exception handlers. -/
inductive MkdirsOutcome where
  | ok : MkdirsOutcome
  | permissionErr (msg : String) : MkdirsOutcome
  | notFoundErr (msg : String) : MkdirsOutcome
  | otherErr (msg : String) : MkdirsOutcome
deriving DecidableEq, Repr

/-- Environment of one `process_media_file` run. -/
structure PipeEnv where
  /-- `os.path.exists` for pre-run paths (validation and the input guard
  of the extraction stage). -/
  fs : String → Bool
  /-- `os.makedirs(output_dir, exist_ok=True)`. -/
  mkdirs : MkdirsOutcome
  /-- FFmpeg subprocess outcome. -/
  ffmpeg : FfmpegOutcome
  /-- The output WAV exists after a zero-exit FFmpeg run. -/
  wavCreated : Bool
  /-- Environment of the transcription stage. -/
  trans : TransEnv
  /-- `os.path.getsize` of the input / WAV / subtitle files, read for the
  success metadata. -/
  inputSize : Nat
  wavSize : Nat
  subtitleSize : Nat
  /-- Rendering `f"{duration:.2f}"` of the wall-clock job duration. -/
  durationStr : String

/-- `pathlib.Path(p).name` (POSIX separators; the claims never inspect
path values). -/
def pathName (p : String) : String := ((p.splitOn "/").getLast?).getD ""

/-- `pathlib.Path(p).stem`: the final component without its last
extension. -/
def pathStem (p : String) : String :=
  match (pathName p).splitOn "." with
  | [x] => x
  | parts => String.intercalate "." parts.dropLast

/-- `process_media_file` from process_media.py, with
`CONFIG_MODULE_AVAILABLE = True` (config.py sits beside the worker in the
repository).  Returns the boolean result and the full ordered trace of
structured stdout events (progress lines and the terminal result line). -/
def process_media_file (env : PipeEnv) (rawConfig : RawConfig) :
    Bool × List Event :=
  -- `config = apply_defaults(config)`
  let config := apply_defaults rawConfig
  -- `is_valid, error_msg = validate_config(config)`
  let v := validate_config env.fs config
  if v.1 = false then
    -- `report_result(False, error=error_msg); return False`
    (false, [.result false none none v.2 []])
  else
    -- `for key in ["input_file", "output_dir"]: ... raise KeyError(key)`
    match config.input_file with
    | none =>
      (false, [.result false none none
        (some "Missing required config: \x27input_file\x27") []])
    | some input_file =>
      match config.output_dir with
      | none =>
        (false, [.result false none none
          (some "Missing required config: \x27output_dir\x27") []])
      | some output_dir =>
        -- `os.makedirs(output_dir, exist_ok=True)`
        match env.mkdirs with
        | .permissionErr m =>
          (false, [.result false none none
            (some ("Permission denied: " ++ m)) []])
        | .notFoundErr m =>
          (false, [.result false none none
            (some ("File not found: " ++ m)) []])
        | .otherErr m =>
          (false, [.result false none none
            (some ("Processing failed: " ++ m)) []])
        | .ok =>
          let base_name := pathStem input_file
          let wav_file := output_dir ++ "/" ++ base_name ++ ".wav"
          let output_format := config.output_format.getD "srt"
          let subtitle_file :=
            output_dir ++ "/" ++ base_name ++ "." ++ output_format
          let e0 := Event.progress "queued" 0
            ("Processing: " ++ pathName input_file)
          let ex := extract_audio
            { inputExists := env.fs input_file, ffmpeg := env.ffmpeg,
              wavCreated := env.wavCreated }
            input_file wav_file
          if ex.ok = false then
            (false, e0 :: ex.events ++
              [.result false none none (some "Audio extraction failed") []])
          else
            let tr := transcribe_audio env.trans wav_file subtitle_file config
            if tr.ok = false then
              (false, e0 :: ex.events ++ tr.events ++
                [.result false (some wav_file) none
                  (some "Transcription failed") []])
            else
              let metadata : List (String × String) :=
                [("input_size", Nat.repr env.inputSize),
                 ("wav_size", Nat.repr env.wavSize),
                 ("subtitle_size", Nat.repr env.subtitleSize),
                 ("duration_seconds", env.durationStr),
                 ("base_name", base_name)]
              (true, e0 :: ex.events ++ tr.events ++
                [.progress "completed" 100 "Processing completed successfully",
                 .result true (some wav_file) (some subtitle_file) none
                   metadata])

/-! ## Estimator lemmas -/

/-- Once the percent counter has reached the 89 cap, the estimator loop
emits nothing more. -/
lemma estimatorLoop_at_cap (s : Nat) (el : Nat → String) (fuel c p : Nat)
    (hp : 89 ≤ p) : estimatorLoop s el fuel c p = [] := by
  cases fuel with
  | zero => rfl
  | succ n =>
    rw [estimatorLoop]
    have : ¬(c < s ∧ p < 89) := by omega
    simp [this]

/-- Every event of an estimator run is a progress event with phase
`transcribing` and a percent between 73 and 89, provided the counter
starts at or above the pre-call value 70. -/
lemma estimatorLoop_mem (s : Nat) (el : Nat → String) :
    ∀ fuel c p, 70 ≤ p → ∀ e ∈ estimatorLoop s el fuel c p,
      isResultEvent e = false ∧ evPhase e = "transcribing" ∧
        73 ≤ evPercent e ∧ evPercent e ≤ 89 := by
  intro fuel
  induction fuel with
  | zero => intro c p _ e he; simp [estimatorLoop] at he
  | succ n ih =>
    intro c p hp e he
    rw [estimatorLoop] at he
    split at he
    · split at he
      · rcases List.mem_cons.mp he with rfl | hmem
        · refine ⟨rfl, rfl, ?_, ?_⟩ <;> simp only [evPercent] <;> omega
        · exact ih _ _ (by omega) e hmem
      · exact ih _ _ hp e he
    · simp at he

/-- The first event of an estimator run (when there is one) carries
percent `min 89 (p + 3)` for starting counter `p`. -/
lemma estimatorLoop_head (s : Nat) (el : Nat → String) :
    ∀ fuel c p e, (estimatorLoop s el fuel c p).head? = some e →
      evPercent e = min 89 (p + 3) := by
  intro fuel
  induction fuel with
  | zero => intro c p e he; simp [estimatorLoop] at he
  | succ n ih =>
    intro c p e he
    rw [estimatorLoop] at he
    split at he
    · split at he
      · simp only [List.head?_cons, Option.some.injEq] at he
        subst he; rfl
      · exact ih _ _ e he
    · simp at he

/-- Consecutive estimator events: each tick sets the counter to
`min 89 (previous + 3)`. -/
lemma estimatorLoop_chain (s : Nat) (el : Nat → String) :
    ∀ fuel c p, List.Chain'
      (fun a b => evPercent b = min 89 (evPercent a + 3))
      (estimatorLoop s el fuel c p) := by
  intro fuel
  induction fuel with
  | zero => intro c p; simp [estimatorLoop]
  | succ n ih =>
    intro c p
    rw [estimatorLoop]
    split
    · split
      · refine List.chain'_cons'.mpr ⟨?_, ih _ _⟩
        intro y hy
        exact estimatorLoop_head s el n (c + 2) (min 89 (p + 3)) y hy
      · exact ih _ _
    · simp

/-- Consecutive estimator percents are non-decreasing (the counter only
advances toward the cap). -/
lemma estimatorLoop_chain_mono (s : Nat) (el : Nat → String) :
    ∀ fuel c p, List.Chain'
      (fun a b => evPercent a ≤ evPercent b)
      (estimatorLoop s el fuel c p) := by
  intro fuel
  induction fuel with
  | zero => intro c p; simp [estimatorLoop]
  | succ n ih =>
    intro c p
    rw [estimatorLoop]
    split
    · split
      · refine List.chain'_cons'.mpr ⟨?_, ih _ _⟩
        intro y hy
        have hh := estimatorLoop_head s el n (c + 2) (min 89 (p + 3)) y hy
        rw [hh]
        simp only [evPercent]
        omega
      · exact ih _ _
    · simp

/-- An estimator run emits at most `(92 - p) / 3` events from counter
value `p` (7 from the pre-call value 70): ticking stops at the cap. -/
lemma estimatorLoop_length (s : Nat) (el : Nat → String) :
    ∀ fuel c p, (estimatorLoop s el fuel c p).length ≤ (92 - p) / 3 := by
  intro fuel
  induction fuel with
  | zero => intro c p; simp [estimatorLoop]
  | succ n ih =>
    intro c p
    rw [estimatorLoop]
    split
    · rename_i hcond
      split
      · by_cases hcap : p + 3 ≤ 89
        · have := ih (c + 2) (min 89 (p + 3))
          simp only [List.length_cons]
          omega
        · have h89 : min 89 (p + 3) = 89 := by omega
          simp only [h89, estimatorLoop_at_cap s el n (c + 2) 89 (le_refl 89),
            List.length_cons, List.length_nil]
          omega
      · exact le_trans (ih _ _) (le_refl _)
    · simp

/-- The 89 cap is reported at most once per estimator run. -/
lemma estimatorLoop_count_cap (s : Nat) (el : Nat → String) :
    ∀ fuel c p,
      ((estimatorLoop s el fuel c p).map evPercent).count 89 ≤ 1 := by
  intro fuel
  induction fuel with
  | zero => intro c p; simp [estimatorLoop]
  | succ n ih =>
    intro c p
    rw [estimatorLoop]
    split
    · split
      · by_cases hcap : min 89 (p + 3) = 89
        · simp [hcap, estimatorLoop_at_cap s el n (c + 2) 89 (le_refl 89),
            evPercent]
        · simp only [List.map_cons, List.count_cons, evPercent]
          have := ih (c + 2) (min 89 (p + 3))
          simp only [beq_iff_eq]
          split <;> omega
      · exact ih _ _
    · simp

/-! ## C4: the background progress estimator -/

/-- C4: every event of a `report_transcription_progress` run is a progress
event with phase `transcribing` (never `finalizing`) and percent strictly
below 90; the first tick reports 73 (the pre-call percent 70 plus the
fixed increment 3); each subsequent tick sets the counter to
`min 89 (previous + 3)` (increment 3, capped at 89); at most 7 ticks occur
and the cap is reported at most once (ticking stops at the cap); and a
stop signal already set before the first check (`s = 0`) yields no tick at
all. -/
theorem estimator_progress_bounded (s : Nat) (elapsed : Nat → String) :
    (∀ e ∈ report_transcription_progress s elapsed,
      isResultEvent e = false ∧ evPhase e = "transcribing" ∧
        evPercent e < 90) ∧
    (∀ e, (report_transcription_progress s elapsed).head? = some e →
      evPercent e = 73) ∧
    List.Chain' (fun a b => evPercent b = min 89 (evPercent a + 3))
      (report_transcription_progress s elapsed) ∧
    (report_transcription_progress s elapsed).length ≤ 7 ∧
    ((report_transcription_progress s elapsed).map evPercent).count 89 ≤ 1 ∧
    (s = 0 → report_transcription_progress s elapsed = []) := by
  refine ⟨?_, ?_, ?_, ?_, ?_, ?_⟩
  · intro e he
    have h := estimatorLoop_mem s elapsed 100 0 70 (by omega) e he
    exact ⟨h.1, h.2.1, by omega⟩
  · intro e he
    have h := estimatorLoop_head s elapsed 100 0 70 e he
    simpa using h
  · exact estimatorLoop_chain s elapsed 100 0 70
  · show (estimatorLoop s elapsed 100 0 70).length ≤ 7
    have h := estimatorLoop_length s elapsed 100 0 70
    omega
  · exact estimatorLoop_count_cap s elapsed 100 0 70
  · intro hs
    subst hs
    rfl

/-- Concrete instance of `estimator_progress_bounded`: with the stop
signal set from the start there are no ticks. -/
theorem estimator_progress_bounded_witness :
    report_transcription_progress 0 (fun _ => "") = [] :=
  (estimator_progress_bounded 0 (fun _ => "")).2.2.2.2.2 rfl

/-! ## C3: extract_audio failure taxonomy -/

/-- C3: with the input present, `extract_audio` returns `false` (its
handlers catch every exception, so it never raises to its caller) in
exactly three cases, each mapped to its own `ExtractFailKind` constructor:
the FFmpeg child exceeding the 3600 s wall-clock budget (`timeoutFail`,
distinct from the generic branch), a non-zero tool exit (`toolFailure`
carrying only the first 500 characters of the tool's stderr), and a zero
exit without the output artifact (`artifactMissing`); it returns `true`
only when the output artifact exists. -/
theorem extract_audio_failure_taxonomy (env : ExtractEnv)
    (input_file output_wav : String) (hin : env.inputExists = true) :
    (( extract_audio env input_file output_wav).ok = false ↔
      env.ffmpeg = .timeout ∨
        (∃ c st, env.ffmpeg = .exit c st ∧ c ≠ 0) ∨
        (∃ st, env.ffmpeg = .exit 0 st ∧ env.wavCreated = false)) ∧
    (( extract_audio env input_file output_wav).ok = true →
      env.wavCreated = true) ∧
    (env.ffmpeg = .timeout →
      ( extract_audio env input_file output_wav).fail = some .timeoutFail) ∧
    (∀ c st, env.ffmpeg = .exit c st → c ≠ 0 →
      ( extract_audio env input_file output_wav).fail =
        some (.toolFailure (st.take 500))) ∧
    (∀ st, env.ffmpeg = .exit 0 st → env.wavCreated = false →
      ( extract_audio env input_file output_wav).fail =
        some .artifactMissing) := by
  rcases env with ⟨ie, ff, wc⟩
  simp only at hin
  subst hin
  cases ff with
  | timeout => simp [ extract_audio]
  | exit c st =>
    by_cases hc : c = 0
    · subst hc
      cases wc <;> simp [ extract_audio]
    · simp [ extract_audio, hc]

/-- Concrete instance of `extract_audio_failure_taxonomy`: an FFmpeg
timeout is a failure with the dedicated timeout kind. -/
theorem extract_audio_failure_taxonomy_witness :
    ( extract_audio ⟨true, .timeout, false⟩ "in.mp4" "out.wav").ok = false ∧
    ( extract_audio ⟨true, .timeout, false⟩ "in.mp4" "out.wav").fail =
      some .timeoutFail := by
  have h := extract_audio_failure_taxonomy ⟨true, .timeout, false⟩
    "in.mp4" "out.wav" rfl
  exact ⟨h.1.mpr (Or.inl rfl), h.2.2.1 rfl⟩

/-! ## Transcription-stage call characterization -/

/-- The resolved compute device of `transcribe_audio`: the configured
device, downgraded to `"cpu"` when `"cuda"` is requested but unavailable. -/
def resolvedDevice (cudaAvailable : Bool) (config : RawConfig) : String :=
  if config.device.getD "cpu" = "cuda" then
    (if cudaAvailable then "cuda" else "cpu")
  else config.device.getD "cpu"

/-- Whenever `transcribe_audio` reaches the blocking recognition call, the
arguments it passes are exactly the resolved configuration: requested
model, resolved device, inline-resolved language, configured task, and
`fp16 and device == "cuda"` computed over the resolved device. -/
lemma transcribe_audio_call (env : TransEnv) (wav_file output_file : String)
    (config : RawConfig) :
    ∀ args, ( transcribe_audio env wav_file output_file config).call =
        some args →
      args = { model := config.whisper_model.getD "base",
               device := resolvedDevice env.cudaAvailable config,
               language := inlineLanguageResolve (config.language.getD "English"),
               task := config.task.getD "transcribe",
               fp16 := config.fp16.getD false &&
                 decide (resolvedDevice env.cudaAvailable config = "cuda") } := by
  intro args hargs
  rcases env with ⟨imp, wavE, cuda, load, outc, save, subC, ss, el⟩
  cases imp <;> cases wavE <;> cases load <;> cases outc <;>
    cases save <;> cases subC <;>
      simp_all [ transcribe_audio, resolvedDevice] <;>
        (first | rfl | (subst hargs; rfl) | skip)

/-! ## C7: cuda-unavailable downgrade -/

/-- C7: when `device="cuda"` is requested but CUDA is unavailable, the
transcription stage behaves exactly as if `"cpu"` had been requested — so
the request alone never fails the run — and any recognition call it makes
runs on the default device `"cpu"`. -/
theorem cuda_request_downgrades_to_cpu (env : TransEnv)
    (wav_file output_file : String) (config : RawConfig)
    (hdev : config.device = some "cuda")
    (hcuda : env.cudaAvailable = false) :
    transcribe_audio env wav_file output_file config =
      transcribe_audio env wav_file output_file
        { config with device := some "cpu" } ∧
    (∀ args, ( transcribe_audio env wav_file output_file config).call =
        some args → args.device = "cpu") := by
  constructor
  · simp [ transcribe_audio, hdev, hcuda]
  · intro args hargs
    have h := transcribe_audio_call env wav_file output_file config args hargs
    rw [h]
    simp [resolvedDevice, hdev, hcuda]

/-- Sample transcript for concrete instances. -/
def sampleTranscript : Transcript :=
  { language := "en", segments := [], text := "" }

/-- A fully successful transcription-stage environment with CUDA
unavailable. -/
def sampleTransEnv : TransEnv :=
  { whisperImportOk := true, wavExists := true, cudaAvailable := false,
    loadOk := true, outcome := .ok sampleTranscript, saveOk := true,
    subtitleCreated := true, stopSchedule := 0, elapsed := fun _ => "" }

/-- A configuration requesting `device="cuda"` with `fp16=True`. -/
def sampleCfgCuda : RawConfig :=
  { input_file := some "in/movie.mp4", output_dir := some "out",
    ffmpeg_path := none, whisper_model := none, language := none,
    device := some "cuda", fp16 := some true, task := none,
    output_format := none, job_id := none }

/-- Concrete instance of `cuda_request_downgrades_to_cpu`. -/
theorem cuda_request_downgrades_to_cpu_witness :
    transcribe_audio sampleTransEnv "a.wav" "a.srt" sampleCfgCuda =
      transcribe_audio sampleTransEnv "a.wav" "a.srt"
        { sampleCfgCuda with device := some "cpu" } :=
  (cuda_request_downgrades_to_cpu sampleTransEnv "a.wav" "a.srt"
    sampleCfgCuda rfl rfl).1

/-! ## C10: fp16 gated on the resolved device -/

/-- C10: the precision flag handed to the blocking recognition call is the
configured `fp16` conjoined with the resolved device being `"cuda"`; in
particular a call on the `"cpu"` device (including after a
cuda-unavailable downgrade) always receives `fp16 = false`. -/
theorem fp16_gated_on_cuda (env : TransEnv)
    (wav_file output_file : String) (config : RawConfig) :
    ∀ args, ( transcribe_audio env wav_file output_file config).call =
        some args →
      args.fp16 = (config.fp16.getD false && decide (args.device = "cuda")) ∧
      (args.device = "cpu" → args.fp16 = false) := by
  intro args hargs
  have h := transcribe_audio_call env wav_file output_file config args hargs
  subst h
  refine ⟨rfl, ?_⟩
  intro hdev
  simp only at hdev
  simp [hdev]

/-- Concrete instance of `fp16_gated_on_cuda`: a job configured with
`fp16=True` and `device="cuda"`, run with CUDA unavailable, reaches the
recognition call with device `"cpu"` and `fp16 = false`. -/
theorem fp16_gated_on_cuda_witness :
    ( transcribe_audio sampleTransEnv "a.wav" "a.srt" sampleCfgCuda).call =
      some { model := "base", device := "cpu", language := some "en",
             task := "transcribe", fp16 := false } ∧
    ({ model := "base", device := "cpu", language := some "en",
       task := "transcribe", fp16 := false } : WhisperArgs).fp16 = false := by
  refine ⟨by rfl, ?_⟩
  exact (fp16_gated_on_cuda sampleTransEnv "a.wav" "a.srt" sampleCfgCuda
    { model := "base", device := "cpu", language := some "en",
      task := "transcribe", fp16 := false } (by rfl)).2 rfl

/-! ## C9: inline language resolution vs config.get_language_code -/

/-- C9 counterexample: for the selector `"Italian"` (lowercase neither
`"auto"` nor one of the eight mapped names) the inline resolution of
`transcribe_audio` forwards the raw name to the recognition call, while
`config.get_language_code` resolves it to no forced language — the two do
not agree. -/
theorem inline_language_differs_on_unmapped :
    inlineLanguageResolve "Italian" = some "Italian" ∧
    get_language_code "Italian" = none ∧
    inlineLanguageResolve "Italian" ≠ get_language_code "Italian" := by
  refine ⟨by decide, by decide, by decide⟩

/-- C9 (amended): the inline resolution agrees with
`config.get_language_code` exactly on the selectors whose lowercase form
is a key of `LANGUAGE_CODES` (`auto` and the eight mapped names); on every
other selector the inline chain keeps the raw name while
`get_language_code` yields no forced language. -/
theorem inline_language_resolution_amended (selector : String) :
    (asciiLower selector ∈ LANGUAGE_CODES.map Prod.fst →
      inlineLanguageResolve selector = get_language_code selector) ∧
    (asciiLower selector ∉ LANGUAGE_CODES.map Prod.fst →
      inlineLanguageResolve selector = some selector ∧
      get_language_code selector = none) := by
  constructor
  · intro h
    simp only [LANGUAGE_CODES, List.map_cons, List.map_nil,
      List.mem_cons, List.not_mem_nil, or_false] at h
    rcases h with h | h | h | h | h | h | h | h | h <;>
      simp [inlineLanguageResolve, get_language_code, LANGUAGE_CODES,
        List.lookup, h]
  · intro h
    simp only [LANGUAGE_CODES, List.map_cons, List.map_nil,
      List.mem_cons, List.not_mem_nil, or_false, not_or] at h
    obtain ⟨h1, h2, h3, h4, h5, h6, h7, h8, h9⟩ := h
    have b1 := beq_eq_false_iff_ne.mpr h1
    have b2 := beq_eq_false_iff_ne.mpr h2
    have b3 := beq_eq_false_iff_ne.mpr h3
    have b4 := beq_eq_false_iff_ne.mpr h4
    have b5 := beq_eq_false_iff_ne.mpr h5
    have b6 := beq_eq_false_iff_ne.mpr h6
    have b7 := beq_eq_false_iff_ne.mpr h7
    have b8 := beq_eq_false_iff_ne.mpr h8
    have b9 := beq_eq_false_iff_ne.mpr h9
    refine ⟨?_, ?_⟩ <;>
      simp [inlineLanguageResolve, get_language_code, LANGUAGE_CODES,
        List.lookup, h1, h2, h3, h4, h5, h6, h7, h8, h9,
        b1, b2, b3, b4, b5, b6, b7, b8, b9]

/-- Concrete instances of `inline_language_resolution_amended`: agreement
on the mapped selector `"English"`, divergence shape on `"Italian"`. -/
theorem inline_language_resolution_amended_witness :
    inlineLanguageResolve "English" = get_language_code "English" ∧
    (inlineLanguageResolve "Italian" = some "Italian" ∧
      get_language_code "Italian" = none) :=
  ⟨(inline_language_resolution_amended "English").1 (by decide),
   (inline_language_resolution_amended "Italian").2 (by decide)⟩

/-! ## C5: validation order and short-circuiting -/

/-- The ordered rule list of the claim: presence of `input_file`, presence
of `output_dir`, existence of the input path, then enum membership for
model, format, task, device, each paired with the message naming the
offending value and the allowed set. -/
def validationChecks (ex : String → Bool) (config : RawConfig) :
    List (Bool × String) :=
  [(config.input_file.isSome, "Missing required field: input_file"),
   (config.output_dir.isSome, "Missing required field: output_dir"),
   (ex (config.input_file.getD ""),
     "Input file not found: " ++ config.input_file.getD ""),
   (VALID_MODELS.contains (config.whisper_model.getD "base"),
     "Invalid model: " ++ config.whisper_model.getD "base" ++
       ". Must be one of " ++ pyListRepr VALID_MODELS),
   (VALID_FORMATS.contains (config.output_format.getD "srt"),
     "Invalid format: " ++ config.output_format.getD "srt" ++
       ". Must be one of " ++ pyListRepr VALID_FORMATS),
   (VALID_TASKS.contains (config.task.getD "transcribe"),
     "Invalid task: " ++ config.task.getD "transcribe" ++
       ". Must be one of " ++ pyListRepr VALID_TASKS),
   (VALID_DEVICES.contains (config.device.getD "cpu"),
     "Invalid device: " ++ config.device.getD "cpu" ++
       ". Must be one of " ++ pyListRepr VALID_DEVICES)]

/-- The message of the first violated rule, if any. -/
def firstFailure : List (Bool × String) → Option String
  | [] => none
  | (ok, msg) :: rest => if ok then firstFailure rest else some msg

/-- C5: `validate_config` applies exactly the ordered rule list of
`validationChecks`, short-circuiting at the first violated rule and
returning `(false, reason)` with that rule's message; it returns
`(true, none)` exactly when every rule passes. -/
theorem validate_config_first_violation (ex : String → Bool)
    (config : RawConfig) :
    (validate_config ex config =
      match firstFailure (validationChecks ex config) with
      | none => (true, none)
      | some m => (false, some m)) ∧
    (validate_config ex config = (true, none) ↔
      ∀ c ∈ validationChecks ex config, c.1 = true) := by
  cases hif : config.input_file with
  | none => simp [validate_config, validationChecks, firstFailure, hif]
  | some f =>
    cases hod : config.output_dir with
    | none => simp [validate_config, validationChecks, firstFailure, hif, hod]
    | some d =>
      by_cases h1 : ex f = true <;>
      by_cases h2 : config.whisper_model.getD "base" ∈ VALID_MODELS <;>
      by_cases h3 : config.output_format.getD "srt" ∈ VALID_FORMATS <;>
      by_cases h4 : config.task.getD "transcribe" ∈ VALID_TASKS <;>
      by_cases h5 : config.device.getD "cpu" ∈ VALID_DEVICES <;>
        simp [validate_config, validationChecks, firstFailure, hif, hod,
          h1, h2, h3, h4, h5]

/-- Concrete instance of `validate_config_first_violation`: a nonexistent
input path is reported by the existence rule. -/
theorem validate_config_first_violation_witness :
    validate_config (fun _ => false) sampleCfgCuda =
      match firstFailure (validationChecks (fun _ => false) sampleCfgCuda) with
      | none => (true, none)
      | some m => (false, some m) :=
  (validate_config_first_violation (fun _ => false) sampleCfgCuda).1

/-! ## C6: progress reporter last-write-wins -/

/-- C6 (intended behavior of `report_progress`; its committed source is a
`SyntaxError`, see the section comment above the definition): two
consecutive calls with identical phase/percent/message append two lines to
the live stream, while the snapshot — located by the job identity alone —
afterwards holds exactly the payload of the second call: an overwrite, not
an append. -/
theorem report_progress_last_write_wins (job_id : Option String)
    (st : ReporterState) (phase : String) (percent : Nat) (message : String)
    (t1 t2 : String) (hj : job_id.isSome = true) :
    (report_progress job_id
        (report_progress job_id st phase percent message t1)
        phase percent message t2).stdout =
      st.stdout ++
        [{ phase := phase, percent := percent, message := message,
           timestamp := t1 },
         { phase := phase, percent := percent, message := message,
           timestamp := t2 }] ∧
    (report_progress job_id
        (report_progress job_id st phase percent message t1)
        phase percent message t2).snapshot =
      some { phase := phase, percent := percent, message := message,
             timestamp := t2 } := by
  cases job_id with
  | none => simp at hj
  | some j => simp [report_progress]

/-- Concrete instance of `report_progress_last_write_wins`. -/
theorem report_progress_last_write_wins_witness :
    (report_progress (some "job-1")
        (report_progress (some "job-1") ⟨[], none⟩ "queued" 0 "go" "t1")
        "queued" 0 "go" "t2").snapshot =
      some { phase := "queued", percent := 0, message := "go",
             timestamp := "t2" } :=
  (report_progress_last_write_wins (some "job-1") ⟨[], none⟩
    "queued" 0 "go" "t1" "t2" rfl).2

/-! ## Stage-trace helper lemmas -/

/-- A nonempty string stays nonempty after appending. -/
lemma append_ne_empty_left {s : String} (t : String) (h : s ≠ "") :
    s ++ t ≠ "" := by
  intro heq
  apply h
  have hdata : s.data ++ t.data = [] := congrArg String.data heq
  have hnil : s.data = [] := by
    rcases List.append_eq_nil.mp hdata with ⟨h1, _⟩
    exact h1
  exact String.ext hnil

/-- The extraction stage emits only progress events. -/
lemma extract_audio_events_no_result (env : ExtractEnv) (i o : String) :
    ∀ e ∈ ( extract_audio env i o).events, isResultEvent e = false := by
  intro e he
  rcases env with ⟨ie, ff, wc⟩
  rcases ff with _ | ⟨c, st⟩
  · cases ie <;> simp_all [ extract_audio, isResultEvent] <;>
      rcases he with rfl | rfl <;> rfl
  · by_cases hc : c = 0
    · subst hc
      cases ie <;> cases wc <;> simp_all [ extract_audio, isResultEvent] <;>
        rcases he with rfl | rfl | rfl <;> rfl
    · cases ie <;> simp_all [ extract_audio, isResultEvent, hc] <;>
        rcases he with rfl | rfl <;> rfl

/-- A successful extraction emits exactly its three bracketing progress
events. -/
lemma extract_audio_ok_events (env : ExtractEnv) (i o : String)
    (h : ( extract_audio env i o).ok = true) :
    ( extract_audio env i o).events =
      [Event.progress "converting" 10 "Starting audio extraction...",
       Event.progress "converting" 25 "Extracting audio with FFmpeg...",
       Event.progress "converting" 50 "Audio extraction completed"] := by
  rcases env with ⟨ie, ff, wc⟩
  rcases ff with _ | ⟨c, st⟩
  · cases ie <;> simp_all [ extract_audio]
  · by_cases hc : c = 0
    · subst hc
      cases ie <;> cases wc <;> simp_all [ extract_audio]
    · cases ie <;> simp_all [ extract_audio, hc]

/-- The transcription stage emits only progress events. -/
lemma transcribe_audio_events_no_result (env : TransEnv) (w o : String)
    (cfg : RawConfig) :
    ∀ e ∈ ( transcribe_audio env w o cfg).events, isResultEvent e = false := by
  rcases env with ⟨imp, wavE, cuda, load, outc, save, subC, ss, el⟩
  have hest : ∀ x ∈ report_transcription_progress ss el,
      isResultEvent x = false :=
    fun x hx => (estimatorLoop_mem ss el 100 0 70 (by omega) x hx).1
  cases imp <;> cases wavE <;> cases load <;>
    rcases outc with _ | _ | _ <;> cases save <;> cases subC <;>
      simp_all [ transcribe_audio, isResultEvent, List.forall_mem_append] <;>
        (intro a ha
         casesm* _ ∨ _ <;>
           first
             | exact hest a (by assumption)
             | (subst_vars; rfl))

/-- A successful transcription emits exactly its bracketing progress
events around the estimator's ticks. -/
lemma transcribe_audio_ok_events (env : TransEnv) (w o : String)
    (cfg : RawConfig) (h : ( transcribe_audio env w o cfg).ok = true) :
    ( transcribe_audio env w o cfg).events =
      [Event.progress "transcribing" 55 "Loading Whisper model...",
       Event.progress "transcribing" 65
         ("Model loaded: " ++ cfg.whisper_model.getD "base"),
       Event.progress "transcribing" 70 "Starting transcription..."] ++
      report_transcription_progress env.stopSchedule env.elapsed ++
      [Event.progress "transcribing" 90
         "Transcription completed, saving subtitle...",
       Event.progress "finalizing" 95 "Subtitle file created"] := by
  rcases env with ⟨imp, wavE, cuda, load, outc, save, subC, ss, el⟩
  cases imp <;> cases wavE <;> cases load <;>
    rcases outc with _ | _ | _ <;> cases save <;> cases subC <;>
      simp_all [ transcribe_audio]

/-- A failed validation reports a nonempty message. -/
lemma validate_config_fail_msg (ex : String → Bool) (cfg : RawConfig)
    (h : (validate_config ex cfg).1 = false) :
    ∃ m, (validate_config ex cfg).2 = some m ∧ m ≠ "" := by
  cases hif : cfg.input_file with
  | none =>
    exact ⟨"Missing required field: input_file",
      by simp [validate_config, hif], by decide⟩
  | some f =>
    cases hod : cfg.output_dir with
    | none =>
      exact ⟨"Missing required field: output_dir",
        by simp [validate_config, hif, hod], by decide⟩
    | some d =>
      by_cases h1 : ex f = true
      · by_cases h2 : cfg.whisper_model.getD "base" ∈ VALID_MODELS
        · by_cases h3 : cfg.output_format.getD "srt" ∈ VALID_FORMATS
          · by_cases h4 : cfg.task.getD "transcribe" ∈ VALID_TASKS
            · by_cases h5 : cfg.device.getD "cpu" ∈ VALID_DEVICES
              · exfalso
                simp [validate_config, hif, hod, h1, h2, h3, h4, h5] at h
              · refine ⟨"Invalid device: " ++ cfg.device.getD "cpu" ++
                  ". Must be one of " ++ pyListRepr VALID_DEVICES,
                  by simp [validate_config, hif, hod, h1, h2, h3, h4, h5], ?_⟩
                exact append_ne_empty_left _ (append_ne_empty_left _
                  (append_ne_empty_left _ (by decide)))
            · refine ⟨"Invalid task: " ++ cfg.task.getD "transcribe" ++
                ". Must be one of " ++ pyListRepr VALID_TASKS,
                by simp [validate_config, hif, hod, h1, h2, h3, h4], ?_⟩
              exact append_ne_empty_left _ (append_ne_empty_left _
                (append_ne_empty_left _ (by decide)))
          · refine ⟨"Invalid format: " ++ cfg.output_format.getD "srt" ++
              ". Must be one of " ++ pyListRepr VALID_FORMATS,
              by simp [validate_config, hif, hod, h1, h2, h3], ?_⟩
            exact append_ne_empty_left _ (append_ne_empty_left _
              (append_ne_empty_left _ (by decide)))
        · refine ⟨"Invalid model: " ++ cfg.whisper_model.getD "base" ++
            ". Must be one of " ++ pyListRepr VALID_MODELS,
            by simp [validate_config, hif, hod, h1, h2], ?_⟩
          exact append_ne_empty_left _ (append_ne_empty_left _
            (append_ne_empty_left _ (by decide)))
      · refine ⟨"Input file not found: " ++ f,
          by simp [validate_config, hif, hod, h1], ?_⟩
        exact append_ne_empty_left _ (by decide)

/-- A trace made of non-result events followed by one terminal result
carries exactly that one result, and carries it last. -/
lemma trace_single_result {L : List Event} {r : Event}
    (hL : ∀ e ∈ L, isResultEvent e = false) (hr : isResultEvent r = true) :
    (L ++ [r]).filter (fun e => isResultEvent e) = [r] ∧
    (L ++ [r]).getLast? = some r := by
  constructor
  · rw [List.filter_append]
    have hnil : L.filter (fun e => isResultEvent e) = [] := by
      rw [List.filter_eq_nil]
      intro a ha
      simp [hL a ha]
    rw [hnil]
    simp [hr]
  · simp [List.getLast?_append]

/-! ## C2: failures emit exactly one terminal result, last -/

/-- C2: every failing run emits exactly one terminal result event; it
carries `success=false` and a nonempty error string, and it is the last
event of the trace — no progress event follows it. -/
theorem pipeline_failure_single_terminal (env : PipeEnv) (cfg : RawConfig)
    (h : (process_media_file env cfg).1 = false) :
    ∃ w sub m md,
      ((process_media_file env cfg).2.filter (fun e => isResultEvent e)) =
        [Event.result false w sub (some m) md] ∧
      (process_media_file env cfg).2.getLast? =
        some (Event.result false w sub (some m) md) ∧
      m ≠ "" := by
  by_cases hv : (validate_config env.fs (apply_defaults cfg)).1 = false
  · obtain ⟨m, hm, hne⟩ := validate_config_fail_msg _ _ hv
    have htrace : process_media_file env cfg =
        (false, [] ++ [Event.result false none none (some m) []]) := by
      simp [process_media_file, hv, hm]
    obtain ⟨hf, hl⟩ := trace_single_result (List.forall_mem_nil _)
      (rfl : isResultEvent (Event.result false none none (some m) []) = true)
    exact ⟨none, none, m, [], by rw [htrace]; exact hf,
      by rw [htrace]; exact hl, hne⟩
  · have hvt : (validate_config env.fs (apply_defaults cfg)).1 = true := by
      simpa using hv
    cases hif : (apply_defaults cfg).input_file with
    | none =>
      have htrace : process_media_file env cfg =
          (false, [] ++ [Event.result false none none
            (some "Missing required config: \x27input_file\x27") []]) := by
        simp [process_media_file, hvt, hif]
      obtain ⟨hf, hl⟩ := trace_single_result (List.forall_mem_nil _)
        (rfl : isResultEvent (Event.result false none none
          (some "Missing required config: \x27input_file\x27") []) = true)
      exact ⟨none, none, _, [], by rw [htrace]; exact hf,
        by rw [htrace]; exact hl, by decide⟩
    | some input_file =>
      cases hod : (apply_defaults cfg).output_dir with
      | none =>
        have htrace : process_media_file env cfg =
            (false, [] ++ [Event.result false none none
              (some "Missing required config: \x27output_dir\x27") []]) := by
          simp [process_media_file, hvt, hif, hod]
        obtain ⟨hf, hl⟩ := trace_single_result (List.forall_mem_nil _)
          (rfl : isResultEvent (Event.result false none none
            (some "Missing required config: \x27output_dir\x27") []) = true)
        exact ⟨none, none, _, [], by rw [htrace]; exact hf,
          by rw [htrace]; exact hl, by decide⟩
      | some output_dir =>
        cases hmk : env.mkdirs with
        | permissionErr pm =>
          have htrace : process_media_file env cfg =
              (false, [] ++ [Event.result false none none
                (some ("Permission denied: " ++ pm)) []]) := by
            simp [process_media_file, hvt, hif, hod, hmk]
          obtain ⟨hf, hl⟩ := trace_single_result (List.forall_mem_nil _)
            (rfl : isResultEvent (Event.result false none none
              (some ("Permission denied: " ++ pm)) []) = true)
          exact ⟨none, none, _, [], by rw [htrace]; exact hf,
            by rw [htrace]; exact hl,
            append_ne_empty_left _ (by decide)⟩
        | notFoundErr nm =>
          have htrace : process_media_file env cfg =
              (false, [] ++ [Event.result false none none
                (some ("File not found: " ++ nm)) []]) := by
            simp [process_media_file, hvt, hif, hod, hmk]
          obtain ⟨hf, hl⟩ := trace_single_result (List.forall_mem_nil _)
            (rfl : isResultEvent (Event.result false none none
              (some ("File not found: " ++ nm)) []) = true)
          exact ⟨none, none, _, [], by rw [htrace]; exact hf,
            by rw [htrace]; exact hl,
            append_ne_empty_left _ (by decide)⟩
        | otherErr om =>
          have htrace : process_media_file env cfg =
              (false, [] ++ [Event.result false none none
                (some ("Processing failed: " ++ om)) []]) := by
            simp [process_media_file, hvt, hif, hod, hmk]
          obtain ⟨hf, hl⟩ := trace_single_result (List.forall_mem_nil _)
            (rfl : isResultEvent (Event.result false none none
              (some ("Processing failed: " ++ om)) []) = true)
          exact ⟨none, none, _, [], by rw [htrace]; exact hf,
            by rw [htrace]; exact hl,
            append_ne_empty_left _ (by decide)⟩
        | ok =>
          by_cases hex : ( extract_audio
              ⟨env.fs input_file, env.ffmpeg, env.wavCreated⟩ input_file
              (output_dir ++ "/" ++ pathStem input_file ++ ".wav")).ok = false
          · have hnores := extract_audio_events_no_result
              ⟨env.fs input_file, env.ffmpeg, env.wavCreated⟩ input_file
              (output_dir ++ "/" ++ pathStem input_file ++ ".wav")
            have htrace : process_media_file env cfg =
                (false,
                  (Event.progress "queued" 0
                      ("Processing: " ++ pathName input_file) ::
                    ( extract_audio
                      ⟨env.fs input_file, env.ffmpeg, env.wavCreated⟩
                      input_file
                      (output_dir ++ "/" ++ pathStem input_file ++ ".wav")).events) ++
                  [Event.result false none none
                    (some "Audio extraction failed") []]) := by
              simp [process_media_file, hvt, hif, hod, hmk, hex]
            have hLmem : ∀ e ∈ (Event.progress "queued" 0
                ("Processing: " ++ pathName input_file) ::
                ( extract_audio
                  ⟨env.fs input_file, env.ffmpeg, env.wavCreated⟩ input_file
                  (output_dir ++ "/" ++ pathStem input_file ++ ".wav")).events),
                isResultEvent e = false :=
              List.forall_mem_cons.mpr ⟨rfl, hnores⟩
            obtain ⟨hf, hl⟩ := trace_single_result hLmem
              (rfl : isResultEvent (Event.result false none none
                (some "Audio extraction failed") []) = true)
            exact ⟨none, none, _, [], by rw [htrace]; exact hf,
              by rw [htrace]; exact hl, by decide⟩
          · have hexok : ( extract_audio
                ⟨env.fs input_file, env.ffmpeg, env.wavCreated⟩ input_file
                (output_dir ++ "/" ++ pathStem input_file ++ ".wav")).ok
                  = true := by
              simpa using hex
            by_cases htr : ( transcribe_audio env.trans
                (output_dir ++ "/" ++ pathStem input_file ++ ".wav")
                (output_dir ++ "/" ++ pathStem input_file ++ "." ++
                  (apply_defaults cfg).output_format.getD "srt")
                (apply_defaults cfg)).ok = false
            · have hnores1 := extract_audio_events_no_result
                ⟨env.fs input_file, env.ffmpeg, env.wavCreated⟩ input_file
                (output_dir ++ "/" ++ pathStem input_file ++ ".wav")
              have hnores2 := transcribe_audio_events_no_result env.trans
                (output_dir ++ "/" ++ pathStem input_file ++ ".wav")
                (output_dir ++ "/" ++ pathStem input_file ++ "." ++
                  (apply_defaults cfg).output_format.getD "srt")
                (apply_defaults cfg)
              have htrace : process_media_file env cfg =
                  (false,
                    (Event.progress "queued" 0
                        ("Processing: " ++ pathName input_file) ::
                      (( extract_audio
                        ⟨env.fs input_file, env.ffmpeg, env.wavCreated⟩
                        input_file
                        (output_dir ++ "/" ++ pathStem input_file ++ ".wav")).events ++
                       ( transcribe_audio env.trans
                        (output_dir ++ "/" ++ pathStem input_file ++ ".wav")
                        (output_dir ++ "/" ++ pathStem input_file ++ "." ++
                          (apply_defaults cfg).output_format.getD "srt")
                        (apply_defaults cfg)).events)) ++
                    [Event.result false
                      (some (output_dir ++ "/" ++ pathStem input_file ++ ".wav"))
                      none (some "Transcription failed") []]) := by
                simp [process_media_file, hvt, hif, hod, hmk, hexok, htr]
              have hLmem : ∀ e ∈ (Event.progress "queued" 0
                  ("Processing: " ++ pathName input_file) ::
                  (( extract_audio
                    ⟨env.fs input_file, env.ffmpeg, env.wavCreated⟩
                    input_file
                    (output_dir ++ "/" ++ pathStem input_file ++ ".wav")).events ++
                   ( transcribe_audio env.trans
                    (output_dir ++ "/" ++ pathStem input_file ++ ".wav")
                    (output_dir ++ "/" ++ pathStem input_file ++ "." ++
                      (apply_defaults cfg).output_format.getD "srt")
                    (apply_defaults cfg)).events)),
                  isResultEvent e = false :=
                List.forall_mem_cons.mpr ⟨rfl,
                  List.forall_mem_append.mpr ⟨hnores1, hnores2⟩⟩
              obtain ⟨hf, hl⟩ := trace_single_result hLmem
                (rfl : isResultEvent (Event.result false
                  (some (output_dir ++ "/" ++ pathStem input_file ++ ".wav"))
                  none (some "Transcription failed") []) = true)
              exact ⟨some (output_dir ++ "/" ++ pathStem input_file ++ ".wav"),
                none, _, [], by rw [htrace]; exact hf,
                by rw [htrace]; exact hl, by decide⟩
            · exfalso
              have htrok : ( transcribe_audio env.trans
                  (output_dir ++ "/" ++ pathStem input_file ++ ".wav")
                  (output_dir ++ "/" ++ pathStem input_file ++ "." ++
                    (apply_defaults cfg).output_format.getD "srt")
                  (apply_defaults cfg)).ok = true := by
                simpa using htr
              have hok : (process_media_file env cfg).1 = true := by
                simp [process_media_file, hvt, hif, hod, hmk, hexok, htrok]
              rw [hok] at h
              simp at h

/-- A configuration blob with every key absent. -/
def emptyCfg : RawConfig :=
  { input_file := none, output_dir := none, ffmpeg_path := none,
    whisper_model := none, language := none, device := none, fp16 := none,
    task := none, output_format := none, job_id := none }

/-- An environment whose filesystem is empty (validation fails first). -/
def sampleFailEnv : PipeEnv :=
  { fs := fun _ => false, mkdirs := .ok, ffmpeg := .timeout,
    wavCreated := false, trans := sampleTransEnv, inputSize := 0,
    wavSize := 0, subtitleSize := 0, durationStr := "0.00" }

/-- Concrete instance of `pipeline_failure_single_terminal`: a run with
an empty configuration fails and emits exactly one result event. -/
theorem pipeline_failure_single_terminal_witness :
    ((process_media_file sampleFailEnv emptyCfg).2.filter
      (fun e => isResultEvent e)).length = 1 := by
  obtain ⟨w, sub, m, md, hf, hl, hne⟩ :=
    pipeline_failure_single_terminal sampleFailEnv emptyCfg (by rfl)
  rw [hf]
  rfl

/-! ## C1: successful runs traverse the full ordered phase sequence -/

/-- A successful run's trace: the queued event, the extraction bracket,
the transcription bracket around the estimator's ticks, the completed
event, and one terminal result event. -/
lemma process_media_file_ok_trace (env : PipeEnv) (cfg : RawConfig)
    (h : (process_media_file env cfg).1 = true) :
    ∃ m1 m2 r, isResultEvent r = true ∧
      (process_media_file env cfg).2 =
        [Event.progress "queued" 0 m1,
         Event.progress "converting" 10 "Starting audio extraction...",
         Event.progress "converting" 25 "Extracting audio with FFmpeg...",
         Event.progress "converting" 50 "Audio extraction completed",
         Event.progress "transcribing" 55 "Loading Whisper model...",
         Event.progress "transcribing" 65 m2,
         Event.progress "transcribing" 70 "Starting transcription..."] ++
        (report_transcription_progress env.trans.stopSchedule
          env.trans.elapsed ++
        [Event.progress "transcribing" 90
           "Transcription completed, saving subtitle...",
         Event.progress "finalizing" 95 "Subtitle file created",
         Event.progress "completed" 100 "Processing completed successfully",
         r]) := by
  by_cases hv : (validate_config env.fs (apply_defaults cfg)).1 = false
  · exfalso; simp [process_media_file, hv] at h
  · have hvt : (validate_config env.fs (apply_defaults cfg)).1 = true := by
      simpa using hv
    cases hif : (apply_defaults cfg).input_file with
    | none => exfalso; simp [process_media_file, hvt, hif] at h
    | some input_file =>
      cases hod : (apply_defaults cfg).output_dir with
      | none => exfalso; simp [process_media_file, hvt, hif, hod] at h
      | some output_dir =>
        cases hmk : env.mkdirs with
        | permissionErr pm =>
          exfalso; simp [process_media_file, hvt, hif, hod, hmk] at h
        | notFoundErr nm =>
          exfalso; simp [process_media_file, hvt, hif, hod, hmk] at h
        | otherErr om =>
          exfalso; simp [process_media_file, hvt, hif, hod, hmk] at h
        | ok =>
          by_cases hex : ( extract_audio
              ⟨env.fs input_file, env.ffmpeg, env.wavCreated⟩ input_file
              (output_dir ++ "/" ++ pathStem input_file ++ ".wav")).ok = false
          · exfalso
            simp [process_media_file, hvt, hif, hod, hmk, hex] at h
          · have hexok : ( extract_audio
                ⟨env.fs input_file, env.ffmpeg, env.wavCreated⟩ input_file
                (output_dir ++ "/" ++ pathStem input_file ++ ".wav")).ok
                = true := by simpa using hex
            by_cases htr : ( transcribe_audio env.trans
                (output_dir ++ "/" ++ pathStem input_file ++ ".wav")
                (output_dir ++ "/" ++ pathStem input_file ++ "." ++
                  (apply_defaults cfg).output_format.getD "srt")
                (apply_defaults cfg)).ok = false
            · exfalso
              simp [process_media_file, hvt, hif, hod, hmk, hexok, htr] at h
            · have htrok : ( transcribe_audio env.trans
                  (output_dir ++ "/" ++ pathStem input_file ++ ".wav")
                  (output_dir ++ "/" ++ pathStem input_file ++ "." ++
                    (apply_defaults cfg).output_format.getD "srt")
                  (apply_defaults cfg)).ok = true := by simpa using htr
              refine ⟨"Processing: " ++ pathName input_file,
                "Model loaded: " ++ (apply_defaults cfg).whisper_model.getD
                  "base",
                Event.result true
                  (some (output_dir ++ "/" ++ pathStem input_file ++ ".wav"))
                  (some (output_dir ++ "/" ++ pathStem input_file ++ "." ++
                    (apply_defaults cfg).output_format.getD "srt"))
                  none
                  [("input_size", Nat.repr env.inputSize),
                   ("wav_size", Nat.repr env.wavSize),
                   ("subtitle_size", Nat.repr env.subtitleSize),
                   ("duration_seconds", env.durationStr),
                   ("base_name", pathStem input_file)],
                rfl, ?_⟩
              simp [process_media_file, hvt, hif, hod, hmk, hexok, htrok,
                extract_audio_ok_events _ _ _ hexok,
                transcribe_audio_ok_events _ _ _ _ htrok]

/-- `progressEvents` of a result-free trace is its pointwise
phase/percent projection. -/
lemma progressEvents_of_no_result {l : List Event}
    (h : ∀ e ∈ l, isResultEvent e = false) :
    progressEvents l = l.map (fun e => (evPhase e, evPercent e)) := by
  induction l with
  | nil => rfl
  | cons a t ih =>
    have ha := h a (List.mem_cons_self a t)
    have ht := ih fun e he => h e (List.mem_cons_of_mem a he)
    cases a with
    | progress ph pc msg =>
      simp [progressEvents, evPhase, evPercent] at ht ⊢
      exact ht
    | result suc w sub err md => simp [isResultEvent] at ha

/-- Consecutive estimator events advance the phase/percent pair within
the claim's step relation: same phase, percent non-decreasing. -/
lemma estimatorLoop_chain_pairs (s : Nat) (el : Nat → String) :
    ∀ fuel c p, 70 ≤ p → List.Chain'
      (fun a b => phaseIdx (evPhase a) ≤ phaseIdx (evPhase b) ∧
        phaseIdx (evPhase b) ≤ phaseIdx (evPhase a) + 1 ∧
        evPercent a ≤ evPercent b)
      (estimatorLoop s el fuel c p) := by
  intro fuel
  induction fuel with
  | zero => intro c p _; simp [estimatorLoop]
  | succ n ih =>
    intro c p hp
    rw [estimatorLoop]
    split
    · split
      · refine List.chain'_cons'.mpr ⟨?_, ih _ _ (by omega)⟩
        intro y hy
        have hperc := estimatorLoop_head s el n (c + 2) (min 89 (p + 3)) y hy
        have hmem := estimatorLoop_mem s el n (c + 2) (min 89 (p + 3))
          (by omega) y (List.mem_of_mem_head? hy)
        refine ⟨?_, ?_, ?_⟩
        · rw [hmem.2.1]; simp [evPhase]
        · rw [hmem.2.1]; simp [evPhase]
        · rw [hperc]; simp only [evPercent]; omega
      · exact ih _ _ hp
    · simp

/-- C1: over every successful run, the emitted progress events start at
`("queued", 0)`, move through the ordered phase sequence with no phase
skipped (each step keeps the phase or advances it by exactly one position)
while the percent values never decrease, stay within `[0,100]` and within
the five lifecycle phases, and end at `("completed", 100)`. -/
theorem pipeline_success_progress_invariant (env : PipeEnv)
    (cfg : RawConfig) (h : (process_media_file env cfg).1 = true) :
    (progressEvents (process_media_file env cfg).2).head? =
      some ("queued", 0) ∧
    List.Chain' (fun a b => phaseIdx a.1 ≤ phaseIdx b.1 ∧
        phaseIdx b.1 ≤ phaseIdx a.1 + 1 ∧ a.2 ≤ b.2)
      (progressEvents (process_media_file env cfg).2) ∧
    (∀ pr ∈ progressEvents (process_media_file env cfg).2,
      pr.2 ≤ 100 ∧ phaseIdx pr.1 ≤ 4) ∧
    (progressEvents (process_media_file env cfg).2).getLast? =
      some ("completed", 100) := by
  obtain ⟨m1, m2, r, hr, htr⟩ := process_media_file_ok_trace env cfg h
  cases r with
  | progress ph pc msg => simp [isResultEvent] at hr
  | result suc w sub err md =>
    have hestnores : ∀ e ∈ report_transcription_progress
        env.trans.stopSchedule env.trans.elapsed, isResultEvent e = false :=
      fun e he => (estimatorLoop_mem _ _ 100 0 70 (by omega) e he).1
    have hestmem : ∀ e ∈ report_transcription_progress
        env.trans.stopSchedule env.trans.elapsed,
        evPhase e = "transcribing" ∧ 73 ≤ evPercent e ∧ evPercent e ≤ 89 :=
      fun e he => (estimatorLoop_mem _ _ 100 0 70 (by omega) e he).2
    have hps : progressEvents (process_media_file env cfg).2 =
        [("queued", 0), ("converting", 10), ("converting", 25),
         ("converting", 50), ("transcribing", 55), ("transcribing", 65),
         ("transcribing", 70)] ++
        ((report_transcription_progress env.trans.stopSchedule
            env.trans.elapsed).map (fun e => (evPhase e, evPercent e)) ++
         [("transcribing", 90), ("finalizing", 95), ("completed", 100)]) := by
      have hmap := progressEvents_of_no_result hestnores
      rw [htr]
      simp only [progressEvents] at hmap ⊢
      simp [List.filterMap_append, hmap]
    rw [hps]
    refine ⟨rfl, ?_, ?_, ?_⟩
    · refine List.chain'_append.mpr ⟨by simp [List.chain'_cons, phaseIdx],
        List.chain'_append.mpr ⟨?_, by simp [List.chain'_cons, phaseIdx],
          ?_⟩, ?_⟩
      · exact (List.chain'_map _).mpr
          (estimatorLoop_chain_pairs _ _ 100 0 70 (by omega))
      · intro x hx y hy
        simp only [List.head?_cons, Option.mem_def, Option.some.injEq] at hy
        subst hy
        have hx' := List.mem_of_mem_getLast? hx
        obtain ⟨e, he, rfl⟩ := List.mem_map.mp hx'
        obtain ⟨hph, h73, h89⟩ := hestmem e he
        refine ⟨?_, ?_, ?_⟩
        · show phaseIdx (evPhase e) ≤ phaseIdx "transcribing"
          rw [hph]
        · show phaseIdx "transcribing" ≤ phaseIdx (evPhase e) + 1
          rw [hph]
          omega
        · show evPercent e ≤ 90
          omega
      · intro x hx y hy
        have hx2 : ("transcribing", 70) = x := by simpa using hx
        subst hx2
        cases hestl : report_transcription_progress env.trans.stopSchedule
            env.trans.elapsed with
        | nil =>
          rw [hestl] at hy
          simp only [List.map_nil, List.nil_append, List.head?_cons,
            Option.mem_def, Option.some.injEq] at hy
          subst hy
          refine ⟨by decide, by decide, by decide⟩
        | cons a t =>
          rw [hestl] at hy
          simp only [List.map_cons, List.cons_append, List.head?_cons,
            Option.mem_def, Option.some.injEq] at hy
          subst hy
          have hamem : a ∈ report_transcription_progress
              env.trans.stopSchedule env.trans.elapsed := by
            rw [hestl]; exact List.mem_cons_self _ _
          obtain ⟨hph, h73, h89⟩ := hestmem a hamem
          have hhead : (report_transcription_progress env.trans.stopSchedule
              env.trans.elapsed).head? = some a := by
            rw [hestl]; rfl
          have hp73 := estimatorLoop_head env.trans.stopSchedule
            env.trans.elapsed 100 0 70 a hhead
          refine ⟨?_, ?_, ?_⟩
          · show phaseIdx "transcribing" ≤ phaseIdx (evPhase a)
            rw [hph]
          · show phaseIdx (evPhase a) ≤ phaseIdx "transcribing" + 1
            rw [hph]
            omega
          · show (70 : Nat) ≤ evPercent a
            omega
    · intro pr hpr
      rcases List.mem_append.mp hpr with h7 | hrest
      · fin_cases h7 <;> exact ⟨by decide, by decide⟩
      · rcases List.mem_append.mp hrest with hmapm | h3
        · obtain ⟨e, he, rfl⟩ := List.mem_map.mp hmapm
          obtain ⟨hph, h73, h89⟩ := hestmem e he
          constructor
          · show evPercent e ≤ 100
            omega
          · show phaseIdx (evPhase e) ≤ 4
            rw [hph]
            decide
        · fin_cases h3 <;> exact ⟨by decide, by decide⟩
    · rw [List.getLast?_append_of_ne_nil _ (by simp),
        List.getLast?_append_of_ne_nil _ (by simp)]
      rfl

/-- A fully valid job configuration. -/
def sampleOkCfg : RawConfig :=
  { input_file := some "in/movie.mp4", output_dir := some "out",
    ffmpeg_path := none, whisper_model := some "tiny",
    language := some "English", device := some "cpu", fp16 := none,
    task := none, output_format := none, job_id := some "j1" }

/-- An environment in which every stage succeeds. -/
def sampleOkEnv : PipeEnv :=
  { fs := fun _ => true, mkdirs := .ok, ffmpeg := .exit 0 "",
    wavCreated := true, trans := sampleTransEnv, inputSize := 10,
    wavSize := 5, subtitleSize := 1, durationStr := "1.00" }

/-- Concrete instance of `pipeline_success_progress_invariant`: a fully
successful run starts at `("queued", 0)` and ends at
`("completed", 100)`. -/
theorem pipeline_success_progress_invariant_witness :
    (progressEvents (process_media_file sampleOkEnv sampleOkCfg).2).head? =
      some ("queued", 0) ∧
    (progressEvents (process_media_file sampleOkEnv sampleOkCfg).2).getLast? =
      some ("completed", 100) := by
  have h := pipeline_success_progress_invariant sampleOkEnv sampleOkCfg
    (by rfl)
  exact ⟨h.1, h.2.2.2⟩

/-- Counterexample to the claim that `extract_audio` fails in exactly
three cases: with the input file absent, FFmpeg reporting exit 0 and the
output artifact present, the function still returns `false` — a fourth,
locally-caught failure case (`FileNotFoundError` from the input guard),
distinct from the timeout, tool-failure and artifact-missing kinds. -/
theorem extract_audio_fourth_failure_case :
    ( extract_audio ⟨false, FfmpegOutcome.exit 0 "", true⟩
      "in.mp4" "out.wav").ok = false ∧
    ( extract_audio ⟨false, FfmpegOutcome.exit 0 "", true⟩
      "in.mp4" "out.wav").fail = some ExtractFailKind.inputMissing ∧
    ExtractFailKind.inputMissing ≠ ExtractFailKind.timeoutFail ∧
    ExtractFailKind.inputMissing ≠ ExtractFailKind.artifactMissing ∧
    (∀ d, ExtractFailKind.inputMissing ≠ ExtractFailKind.toolFailure d) := by
  refine ⟨rfl, rfl, by decide, by decide, ?_⟩
  intro d h
  exact ExtractFailKind.noConfusion h
